import Mathlib

/-!
Shallow embedding of the approval-reconciliation, review-submission and
configuration logic of the AutomatePullRequest repository (React/TypeScript
frontend).  The definitions translate the TypeScript sources:
  - `src/ui/src/pages/PRReview.tsx` (checkPRApprovalStatus, fetchPRs,
    submitReview, error-message substitution),
  - `src/ui/src/utils/config.ts` (validateConfig),
  - the GitHub service class (getBranches / getLabels / getCollaborators /
    createPullRequest) and the PR-creation form loader (loadGitHubData).
Component state (React useState) is passed explicitly; remote axios calls
are passed in as `Except`/outcome parameters, and the number of outgoing
collaborator calls is recorded in the results where a claim needs it.
-/

namespace AutomatePR

/-- A review record as stored in the `prReviews` component state of
`PRReview.tsx` (fields of its useState array element type). -/
structure Review where
  id : Nat
  user : String
  body : String
  state : String
  submitted_at : String
deriving DecidableEq

/-- An AI review comment, from the `aiComments` field of the `PRReview`
interface in `PRReview.tsx`. -/
structure AIComment where
  id : String
  body : String
  path : String
  line : Nat
  severity : String
deriving DecidableEq

/-- A changed file, from the `filesChanged` field of the `PRReview`
interface in `PRReview.tsx`. -/
structure FileChange where
  filename : String
  additions : Nat
  deletions : Nat
  changes : Nat
deriving DecidableEq

/-- The `PRReview` interface of `PRReview.tsx`.  The TypeScript `status`
field is the string union `open | approved | changes_requested | pending`,
kept here as a `String` exactly as the source compares it. -/
structure PRReview where
  id : Nat
  title : String
  author : String
  status : String
  branch : String
  baseBranch : String
  description : String
  createdAt : String
  updatedAt : String
  reviewers : List String
  labels : List String
  aiScore : Nat
  aiSuggestions : List String
  aiComments : List AIComment
  filesChanged : List FileChange
deriving DecidableEq

/-- A pull request as returned by the backend API (`response.prs` elements
consumed by `fetchPRs` in `PRReview.tsx`).  `body`, `reviewers` and `labels`
are optional because the source defaults each of them to an empty value. -/
structure ApiPR where
  number : Nat
  title : String
  author : String
  state : String
  head_branch : String
  base_branch : String
  body : Option String
  created_at : String
  updated_at : String
  reviewers : Option (List String)
  labels : Option (List String)
deriving DecidableEq

/-- The conversion performed inside `fetchPRs` (`PRReview.tsx`, lines
190-206): the ternary maps declared state `open` to component status
`open` and every other declared state to `approved`, with the
placeholder AI fields. -/
def convertPR (pr : ApiPR) : PRReview :=
  { id := pr.number
    title := pr.title
    author := pr.author
    status := if pr.state == "open" then ("open") else ("approved")
    branch := pr.head_branch
    baseBranch := pr.base_branch
    description := pr.body.getD ""
    createdAt := pr.created_at
    updatedAt := pr.updated_at
    reviewers := pr.reviewers.getD []
    labels := pr.labels.getD []
    aiScore := 85
    aiSuggestions := []
    aiComments := []
    filesChanged := [] }

/-- `checkPRApprovalStatus` (`PRReview.tsx`, lines 165-177).  The source
reads the `prReviews` component state; here it is an explicit argument. -/
def checkPRApprovalStatus (pr : PRReview) (prReviews : List Review) : Bool :=
  if pr.status == "approved" then
    true
  else
    prReviews.any (fun review =>
      review.state == "APPROVED" || review.state == "approved")

/-- `checkPRApprovalStatus` with an explicit collaborator-call counter
threaded through.  The body of the source function issues no API call, so
the counter is passed through unchanged on both paths. -/
def checkPRApprovalStatusCounted (pr : PRReview) (prReviews : List Review)
    (calls : Nat) : Bool × Nat :=
  if pr.status == "approved" then
    (true, calls)
  else
    (prReviews.any (fun review =>
      review.state == "APPROVED" || review.state == "approved"), calls)

/-- The approval policy exactly as the specification words it (spec section
3 / claim C4): approved iff the component status is `approved` or some
review state equals the exact string `APPROVED`.  Stated for comparison
with `checkPRApprovalStatus`, which is translated from the source. -/
def claimedIsApproved (pr : PRReview) (reviews : List Review) : Bool :=
  pr.status == "approved" || reviews.any (fun r => r.state == "APPROVED")

/-- Does `pat` match the front of the character list? (helper for the JS
`String.prototype.includes` used by the error substitutions). -/
def matchesAt : List Char → List Char → Bool
  | [], _ => true
  | _ :: _, [] => false
  | a :: as, b :: bs => a == b && matchesAt as bs

/-- Does the character list contain `pat` as a contiguous run? -/
def hasSubList (pat : List Char) : List Char → Bool
  | [] => pat.isEmpty
  | c :: cs => matchesAt pat (c :: cs) || hasSubList pat cs

/-- JS `s.includes(pat)`, modelled over the character lists. -/
def strIncludes (s pat : String) : Bool :=
  hasSubList pat.data s.data

/-- Toast severity, the `status` field passed to the Chakra `toast`. -/
inductive ToastStatus
  | success
  | warning
  | error
deriving DecidableEq

/-- A toast notification as issued by the page components. -/
structure Toast where
  title : String
  description : String
  status : ToastStatus
deriving DecidableEq

/-- The parts of an axios error object read by the catch block of
`submitReview`: the fields
`error.response?.data?.detail` and `error.message`.  `none` stands
for an absent field; the source tests them with JS truthiness, so an empty
string behaves like an absent field. -/
structure ApiError where
  detail : Option String
  message : Option String
deriving DecidableEq

/-- The `errorMessage` computed by the catch block of `submitReview`
(`PRReview.tsx`, lines 496-501) before the substitutions: the response
detail if truthy, else `error.message` if truthy, else the default. -/
def baseErrorMessage (e : ApiError) : String :=
  if e.detail.getD "" != "" then e.detail.getD ""
  else if e.message.getD "" != "" then e.message.getD ""
  else "Failed to submit review"

/-- Replacement message for 403/permission failures (`PRReview.tsx`,
line 505). -/
def permissionDeniedMessage : String :=
  "Permission denied. Your GitHub token may not have the required permissions to submit reviews. Please check your token has the \"repo\" scope."

/-- Replacement message for self-approval failures (`PRReview.tsx`,
line 507). -/
def ownPullRequestMessage : String :=
  "You cannot approve your own pull request. This is a GitHub security feature. Please ask another team member to review and approve the PR."

/-- The error message shown by the catch block of `submitReview` after the two
substitutions (`PRReview.tsx`, lines 503-508). -/
def reviewErrorMessage (e : ApiError) : String :=
  let errorMessage := baseErrorMessage e
  if strIncludes errorMessage ("403") || strIncludes errorMessage ("permission") then
    permissionDeniedMessage
  else if strIncludes errorMessage ("own pull request")
      || strIncludes errorMessage ("Can not approve") then
    ownPullRequestMessage
  else errorMessage

/-- The review payload sent to `apiService.submitPRReview`
(`PRReview.tsx`, lines 477-481). -/
structure ReviewRequest where
  state : String
  body : String
  event : String
deriving DecidableEq

/-- Result of one `submitReview` run: how many remote collaborator calls
were issued (`apiService.submitPRReview`), the payload of that call if one
was made, and the toast shown.  The React state resets performed on the
success path (clearing the comment, resetting the action to comment) are
elided: no claim mentions them. -/
structure SubmitResult where
  calls : Nat
  submitted : Option ReviewRequest
  toast : Option Toast
deriving DecidableEq

/-- The test `!reviewComment.trim()` of the source: a string trims to the
empty (falsy) string exactly when it is empty or whitespace-only, i.e.
when every character is whitespace. -/
def trimIsEmpty (s : String) : Bool :=
  s.data.all Char.isWhitespace

/-- The local-gating rejection toast (`PRReview.tsx`, lines 451-457). -/
def rejectionToast : Toast :=
  { title := "Review Action Not Allowed"
    description := "This PR is already approved. You can only add comments."
    status := ToastStatus.warning }

/-- `submitReview` (`PRReview.tsx`, lines 445-518).  Component state
(`selectedPR`, `isPRApproved`, `reviewAction`, `reviewComment`) is passed
explicitly; the outcome of the single remote call is the `remote` parameter.
`reviewAction` is the TS string union `approve | request_changes |
comment`. -/
def submitReview (selectedPR : Option Nat) (isPRApproved : Bool)
    (reviewAction reviewComment : String)
    (remote : Except ApiError Unit) : SubmitResult :=
  match selectedPR with
  | none => { calls := 0, submitted := none, toast := none }
  | some prId =>
    if isPRApproved && !(reviewAction == "comment") then
      { calls := 0, submitted := none, toast := some rejectionToast }
    else
      let event :=
        if reviewAction == "approve" then ("APPROVE")
        else if reviewAction == "request_changes" then ("REQUEST_CHANGES")
        else ("COMMENT")
      let reviewBody :=
        if (event == "APPROVE" || event == "REQUEST_CHANGES")
            && trimIsEmpty reviewComment then
          (if event == "APPROVE" then ("Approved") else ("Changes requested"))
        else reviewComment
      match remote with
      | .ok _ =>
        { calls := 1
          submitted := some { state := event, body := reviewBody, event := event }
          toast := some
            { title := "Review Submitted"
              description :=
                "Your review for PR #" ++ toString prId
                  ++ " has been submitted successfully"
              status := ToastStatus.success } }
      | .error e =>
        { calls := 1
          submitted := some { state := event, body := reviewBody, event := event }
          toast := some
            { title := "Review Failed"
              description := reviewErrorMessage e
              status := ToastStatus.error } }

/-- The `github` section of `AppConfig` (`config.ts`). -/
structure GitHubConfig where
  token : String
  repository : String
  baseBranch : String
  autoMerge : Bool
  requireReviews : Bool
deriving DecidableEq

/-- The `groq` section of `AppConfig` (`config.ts`).  The float field
`temperature` is omitted: no claim touches it. -/
structure GroqConfig where
  apiKey : String
  model : String
  maxTokens : Nat
deriving DecidableEq

/-- The `sheets` section of `AppConfig` (`config.ts`). -/
structure SheetsConfig where
  credentialsFile : String
  spreadsheetId : String
  worksheetName : String
  autoSync : Bool
  syncInterval : Nat
deriving DecidableEq

/-- The `api` section of `AppConfig` (`config.ts`). -/
structure ApiConfig where
  baseUrl : String
  timeout : Nat
deriving DecidableEq

/-- The `app` section of `AppConfig` (`config.ts`). -/
structure AppSectionConfig where
  title : String
  logLevel : String
deriving DecidableEq

/-- The `AppConfig` interface of `config.ts`.  Environment lookup
(`getEnvVar`) yields a string, with the empty string as the fallback, so
an unset variable shows up here as the empty string. -/
structure AppConfig where
  github : GitHubConfig
  groq : GroqConfig
  sheets : SheetsConfig
  api : ApiConfig
  app : AppSectionConfig
deriving DecidableEq

/-- The `{ isValid, missing }` record returned by `validateConfig`. -/
structure ValidationResult where
  isValid : Bool
  missing : List String
deriving DecidableEq

/-- `validateConfig` (`config.ts`, lines 93-106).  The JS truthiness test
`!config.github.token` on a string is an emptiness test. -/
def validateConfig (config : AppConfig) : ValidationResult :=
  let missing : List String :=
    (if config.github.token == "" then ["GITHUB_TOKEN"] else [])
      ++ (if config.github.repository == "" then ["GITHUB_REPO"] else [])
      ++ (if config.groq.apiKey == "" then ["GROQ_API_KEY"] else [])
      ++ (if config.sheets.credentialsFile == "" then ["GOOGLE_SHEETS_CREDENTIALS_FILE"] else [])
      ++ (if config.sheets.spreadsheetId == "" then ["GOOGLE_SHEETS_SPREADSHEET_ID"] else [])
  { isValid := missing.length == 0, missing := missing }

/-- Commit reference inside a branch record (GitHub service interfaces). -/
structure CommitRef where
  sha : String
  url : String
deriving DecidableEq

/-- The `GitHubBranch` interface.  The TS field `protected` is a Lean
keyword and is rendered `protectedFlag`. -/
structure GitHubBranch where
  name : String
  commit : CommitRef
  protectedFlag : Bool
deriving DecidableEq

/-- The `GitHubLabel` interface. -/
structure GitHubLabel where
  name : String
  color : String
  description : Option String
deriving DecidableEq

/-- The `GitHubUser` interface. -/
structure GitHubUser where
  login : String
  id : Nat
  avatar_url : String
  type : String
deriving DecidableEq

/-- Outcome of a remote axios call made by the GitHub service: either the
response data or the caught error (its message string). -/
inductive RemoteOutcome (α : Type)
  | success (data : α)
  | failure (error : String)
deriving DecidableEq

/-- `GitHubService.getBranches`: returns `[]` when the token or repository
is not configured, the response data on success, and `[]` from the catch
block on any remote failure. -/
def GitHubService.getBranches (token repo : String)
    (remote : RemoteOutcome (List GitHubBranch)) : List GitHubBranch :=
  if token == "" || repo == "" then []
  else
    match remote with
    | .success data => data
    | .failure _ => []

/-- `GitHubService.getLabels`: same shape as `getBranches`. -/
def GitHubService.getLabels (token repo : String)
    (remote : RemoteOutcome (List GitHubLabel)) : List GitHubLabel :=
  if token == "" || repo == "" then []
  else
    match remote with
    | .success data => data
    | .failure _ => []

/-- `GitHubService.getCollaborators`: same shape as `getBranches`. -/
def GitHubService.getCollaborators (token repo : String)
    (remote : RemoteOutcome (List GitHubUser)) : List GitHubUser :=
  if token == "" || repo == "" then []
  else
    match remote with
    | .success data => data
    | .failure _ => []

/-- `GitHubService.createPullRequest`: throws when the token or repository
is not configured, and rethrows any remote failure (the catch block logs
and rethrows), returning the response data on success.  The request fields
are carried for fidelity; only the outcome logic matters to the claims. -/
def GitHubService.createPullRequest (α : Type) (token repo : String)
    (title head base body : String) (labels reviewers : List String)
    (remote : RemoteOutcome α) : Except String α :=
  if token == "" || repo == "" then
    .error ("GitHub token or repository not configured")
  else
    match remote with
    | .success data =>
      let _ := (title, head, base, body, labels, reviewers)
      .ok data
    | .failure e => .error e

/-- Backend response for `apiService.getBranches` as destructured by the
PR-creation form (`branchesResponse.branches || []`). -/
structure BranchesResponse where
  branches : Option (List GitHubBranch)
deriving DecidableEq

/-- Backend response for `apiService.getLabels`. -/
structure LabelsResponse where
  labels : Option (List GitHubLabel)
deriving DecidableEq

/-- Backend response for `apiService.getCollaborators`. -/
structure CollaboratorsResponse where
  collaborators : Option (List GitHubUser)
deriving DecidableEq

/-- The component state of the PR-creation form touched by
`loadGitHubData`: the three lists, the base branch of the form, the error toast
(if one was raised) and the loading flag. -/
structure CreatePRState where
  branches : List GitHubBranch
  labels : List GitHubLabel
  reviewers : List GitHubUser
  baseBranch : String
  errorToast : Option Toast
  isLoadingData : Bool
deriving DecidableEq

/-- The toast raised by the catch block of `loadGitHubData`. -/
def loadErrorToast : Toast :=
  { title := "Failed to load GitHub data"
    description := "Please check your backend server is running and GitHub configuration is correct"
    status := ToastStatus.error }

/-- `loadGitHubData` (PR-creation form, lines 494-528).  The three
`apiService` fetchers rethrow failures, and the source joins them with
`Promise.all`, which rejects as soon as any one rejects; the rejection is
handled by the local catch block (error toast), and the `finally` clause
clears the loading flag.  The outcome of each fetcher is a parameter. -/
def loadGitHubData (cfgBaseBranch : String)
    (branchesResponse : Except String BranchesResponse)
    (labelsResponse : Except String LabelsResponse)
    (collaboratorsResponse : Except String CollaboratorsResponse)
    (st : CreatePRState) : CreatePRState :=
  match branchesResponse, labelsResponse, collaboratorsResponse with
  | .ok b, .ok l, .ok c =>
    let branchesData := b.branches.getD []
    let st1 :=
      { st with
        branches := branchesData
        labels := l.labels.getD []
        reviewers := c.collaborators.getD [] }
    let st2 :=
      match branchesData with
      | [] => st1
      | b0 :: _ =>
        let defaultBranch :=
          (branchesData.find? (fun (branch : GitHubBranch) => branch.name == cfgBaseBranch)).getD b0
        { st1 with baseBranch := defaultBranch.name }
    { st2 with isLoadingData := false }
  | _, _, _ =>
    { st with errorToast := some loadErrorToast, isLoadingData := false }

/-- Sample backend PR whose declared status is `closed` (neither `open`
nor `merged`). -/
def closedApiPR : ApiPR :=
  { number := 1, title := "t", author := "alice", state := "closed"
    head_branch := "feature", base_branch := "main", body := none
    created_at := "", updated_at := "", reviewers := none, labels := none }

/-- Sample backend PR whose declared status is `open`. -/
def openApiPR : ApiPR :=
  { number := 2, title := "t", author := "alice", state := "open"
    head_branch := "feature", base_branch := "main", body := none
    created_at := "", updated_at := "", reviewers := none, labels := none }

/-- Sample review whose state is the exact string `APPROVED`. -/
def approvedReview : Review :=
  { id := 2, user := "bob", body := "lgtm", state := "APPROVED", submitted_at := "" }

/-- Sample component PR whose status is `open`. -/
def openPRSample : PRReview :=
  { id := 3, title := "t", author := "alice", status := "open"
    branch := "feature", baseBranch := "main", description := ""
    createdAt := "", updatedAt := "", reviewers := [], labels := []
    aiScore := 85, aiSuggestions := [], aiComments := [], filesChanged := [] }

/-- Sample review with the lowercase state `approved`. -/
def lowercaseApprovedReview : Review :=
  { id := 4, user := "carol", body := "", state := "approved", submitted_at := "" }

/-- Sample review with state `PENDING`. -/
def pendingReview : Review :=
  { id := 5, user := "dave", body := "", state := "PENDING", submitted_at := "" }

/-- Sample review with an unrecognized state string. -/
def unknownStateReview : Review :=
  { id := 6, user := "erin", body := "", state := "TOTALLY_UNKNOWN", submitted_at := "" }

/-- Claim C1 fails as stated: a PR whose declared status is `closed`
(not `merged`) with an empty reviews sequence reconciles to
`is_approved = true`, because `fetchPRs` maps every non-`open` declared
status to the component status `approved`. -/
theorem c1_counterexample :
    closedApiPR.state ≠ "merged"
      ∧ checkPRApprovalStatus (convertPR closedApiPR) [] = true :=
  ⟨by decide, by decide⟩

/-- Claim C1 (amended): for every PR with an empty reviews sequence, the
reconciled approval boolean is true if and only if the declared status is
not `open`: `fetchPRs` maps declared status `open` to component status
`open` and every other declared status (`closed` or `merged`) to
`approved`, which `checkPRApprovalStatus` then reports as approved. -/
theorem c1_empty_reviews_amended (pr : ApiPR) :
    checkPRApprovalStatus (convertPR pr) [] = !(pr.state == "open") := by
  unfold checkPRApprovalStatus convertPR
  cases hb : pr.state == "open" <;> simp [hb]

/-- Claim C2: whenever some review in the sequence has state `APPROVED`,
reconciliation returns true, regardless of the declared status of the PR. -/
theorem c2_any_approved_wins (pr : ApiPR) (reviews : List Review)
    (h : reviews.any (fun r => r.state == "APPROVED") = true) :
    checkPRApprovalStatus (convertPR pr) reviews = true := by
  unfold checkPRApprovalStatus
  split
  · rfl
  · rcases List.any_eq_true.1 h with ⟨r, hr, hst⟩
    exact List.any_eq_true.2 ⟨r, hr, by simp [hst]⟩

theorem c2_witness :
    ([approvedReview].any (fun r => r.state == "APPROVED") = true)
      ∧ checkPRApprovalStatus (convertPR openApiPR) [approvedReview] = true :=
  ⟨by decide, c2_any_approved_wins openApiPR [approvedReview] (by decide)⟩

/-- Claim C4 fails as stated: the source also treats the lowercase state
string `approved` as approving, so an open PR whose only review state is
`approved` reconciles to true although no review state equals `APPROVED`
and the declared status does not make the PR approved. -/
theorem c4_counterexample :
    checkPRApprovalStatus openPRSample [lowercaseApprovedReview] = true
      ∧ claimedIsApproved openPRSample [lowercaseApprovedReview] = false :=
  ⟨by decide, by decide⟩

/-- Claim C4 (amended): reconciliation is a total function over arbitrary
state strings (it never throws), and every review state other than the
exact strings `APPROVED` and `approved` is treated as non-approving: the
result is false unless the status of the PR is `approved` or some review state
equals `APPROVED` or `approved`. -/
theorem c4_unknown_states_amended (pr : PRReview) (reviews : List Review)
    (hstatus : pr.status ≠ "approved")
    (hrev : ∀ r ∈ reviews, r.state ≠ "APPROVED" ∧ r.state ≠ "approved") :
    checkPRApprovalStatus pr reviews = false := by
  unfold checkPRApprovalStatus
  have h1 : (pr.status == "approved") = false := by
    simp [hstatus]
  simp only [h1, Bool.false_eq_true, if_false]
  rw [List.any_eq_false]
  intro r hr
  rcases hrev r hr with ⟨h2, h3⟩
  simp [h2, h3]

theorem c4_witness :
    openPRSample.status ≠ "approved"
      ∧ checkPRApprovalStatus openPRSample [pendingReview, unknownStateReview] = false :=
  ⟨by decide,
   c4_unknown_states_amended openPRSample [pendingReview, unknownStateReview]
     (by decide) (by decide)⟩

/-- Claim C3: when `is_approved` is true, the actions `approve` and
`request_changes` are rejected locally before any remote collaborator call
(the call count stays zero, nothing is submitted, and the descriptive
rejection toast is shown), while the action `comment` proceeds and issues
exactly one remote call. -/
theorem c3_local_gating (prId : Nat) (comment : String)
    (remote : Except ApiError Unit) :
    ((submitReview (some prId) true ("approve") comment remote).calls = 0)
  ∧ ((submitReview (some prId) true ("approve") comment remote).submitted = none)
  ∧ ((submitReview (some prId) true ("approve") comment remote).toast = some rejectionToast)
  ∧ ((submitReview (some prId) true ("request_changes") comment remote).calls = 0)
  ∧ ((submitReview (some prId) true ("request_changes") comment remote).submitted = none)
  ∧ ((submitReview (some prId) true ("request_changes") comment remote).toast = some rejectionToast)
  ∧ ((submitReview (some prId) true ("comment") comment remote).calls = 1) := by
  cases remote <;> exact ⟨rfl, rfl, rfl, rfl, rfl, rfl, rfl⟩

/-- Claim C5: submission maps intent `approve` to event `APPROVE`,
`request_changes` to `REQUEST_CHANGES` and `comment` to `COMMENT`, and
when the supplied body is empty or whitespace-only the submitted body
defaults to `Approved` for `APPROVE` and `Changes requested` for
`REQUEST_CHANGES`. -/
theorem c5_event_translation (prId : Nat) (comment : String)
    (remote : Except ApiError Unit) :
    ((submitReview (some prId) false ("approve") comment remote).submitted.map
        (fun r => r.event) = some ("APPROVE"))
  ∧ ((submitReview (some prId) false ("request_changes") comment remote).submitted.map
        (fun r => r.event) = some ("REQUEST_CHANGES"))
  ∧ ((submitReview (some prId) false ("comment") comment remote).submitted.map
        (fun r => r.event) = some ("COMMENT"))
  ∧ (trimIsEmpty comment = true →
      ((submitReview (some prId) false ("approve") comment remote).submitted.map
          (fun r => r.body) = some ("Approved"))
    ∧ ((submitReview (some prId) false ("request_changes") comment remote).submitted.map
          (fun r => r.body) = some ("Changes requested"))) := by
  cases remote <;>
    refine ⟨rfl, rfl, rfl, fun h => ⟨?_, ?_⟩⟩ <;>
    simp [submitReview, h]

theorem c5_witness :
    trimIsEmpty ("  ") = true
      ∧ ((submitReview (some 7) false ("approve") ("  ") (.ok ())).submitted.map
          (fun r => r.body) = some ("Approved")) :=
  ⟨by decide, ((c5_event_translation 7 ("  ") (.ok ())).2.2.2 (by decide)).1⟩

/-- Claim C7: approval reconciliation is pure over the supplied data: with
an explicit collaborator-call counter threaded through, the counter is
returned unchanged (no remote call is issued, in particular no re-fetch of
reviews), and the value returned is the same boolean the pure function
computes from the same supplied data. -/
theorem c7_pure_reconciliation (pr : PRReview) (prReviews : List Review)
    (calls : Nat) :
    ((checkPRApprovalStatusCounted pr prReviews calls).2 = calls)
  ∧ ((checkPRApprovalStatusCounted pr prReviews calls).1
      = checkPRApprovalStatus pr prReviews) := by
  unfold checkPRApprovalStatusCounted checkPRApprovalStatus
  constructor <;> by_cases h : pr.status = "approved" <;> simp [h]

/-- Claim C8: a failed remote submission surfaces to the caller after
exactly one remote call (no retry), as an error toast carrying the mapped
message; the message is the original one where available (response detail
first, then the message field of the error), except that a message containing
`403` or `permission` is replaced by the token-scope hint and a message
indicating self-approval is replaced by the explanatory
self-approval message. -/
theorem c8_error_propagation (prId : Nat) (comment : String) (e : ApiError) :
    ((submitReview (some prId) false ("comment") comment (.error e)).calls = 1)
  ∧ ((submitReview (some prId) false ("comment") comment (.error e)).toast =
       some { title := "Review Failed", description := reviewErrorMessage e,
              status := ToastStatus.error })
  ∧ (e.detail.getD "" ≠ "" → baseErrorMessage e = e.detail.getD "")
  ∧ (e.detail.getD "" = "" → e.message.getD "" ≠ "" →
       baseErrorMessage e = e.message.getD "")
  ∧ ((strIncludes (baseErrorMessage e) ("403") = true
        ∨ strIncludes (baseErrorMessage e) ("permission") = true) →
       reviewErrorMessage e = permissionDeniedMessage)
  ∧ (strIncludes (baseErrorMessage e) ("403") = false →
     strIncludes (baseErrorMessage e) ("permission") = false →
     (strIncludes (baseErrorMessage e) ("own pull request") = true
        ∨ strIncludes (baseErrorMessage e) ("Can not approve") = true) →
       reviewErrorMessage e = ownPullRequestMessage)
  ∧ (strIncludes (baseErrorMessage e) ("403") = false →
     strIncludes (baseErrorMessage e) ("permission") = false →
     strIncludes (baseErrorMessage e) ("own pull request") = false →
     strIncludes (baseErrorMessage e) ("Can not approve") = false →
       reviewErrorMessage e = baseErrorMessage e) := by
  refine ⟨rfl, rfl, ?_, ?_, ?_, ?_, ?_⟩
  · intro h
    simp [baseErrorMessage, h]
  · intro h1 h2
    simp [baseErrorMessage, h1, h2]
  · rintro (h | h) <;> simp [reviewErrorMessage, h]
  · intro h1 h2 h3
    rcases h3 with h | h <;> simp [reviewErrorMessage, h1, h2, h]
  · intro h1 h2 h3 h4
    simp [reviewErrorMessage, h1, h2, h3, h4]

/-- Sample axios error whose response detail reports a 403. -/
def permissionApiError : ApiError :=
  { detail := some "Request failed with status code 403", message := none }

theorem c8_witness :
    (strIncludes (baseErrorMessage permissionApiError) ("403") = true)
      ∧ reviewErrorMessage permissionApiError = permissionDeniedMessage :=
  ⟨by decide,
   (c8_error_propagation 1 ("") permissionApiError).2.2.2.2.1 (Or.inl (by decide))⟩

/-- Sample branch record named `main`. -/
def mainBranchSample : GitHubBranch :=
  { name := "main", commit := { sha := "abc", url := "" }, protectedFlag := false }

/-- The initial component state of the PR-creation form when
`loadGitHubData` starts (empty lists, base branch `main`, loading flag
already set). -/
def initialCreatePRState : CreatePRState :=
  { branches := [], labels := [], reviewers := [], baseBranch := "main"
    errorToast := none, isLoadingData := true }

/-- The scenario of claim C6: the branches fetch succeeds with one branch,
the labels fetch fails with a 500, the collaborators fetch succeeds. -/
def branchesOkLabels500 : CreatePRState :=
  loadGitHubData ("main")
    (.ok { branches := some [mainBranchSample] })
    (.error ("Request failed with status code 500"))
    (.ok { collaborators := some [] })
    initialCreatePRState

/-- Claim C6 fails as stated: when the labels fetch fails with a 500 while
the branches fetch succeeds, the succeeding branches result does NOT
populate the form (the list stays empty), because `Promise.all` over
rethrowing fetchers rejects as a whole and the catch block runs instead of
the state setters. -/
theorem c6_counterexample :
    branchesOkLabels500.branches = []
      ∧ branchesOkLabels500.branches ≠ [mainBranchSample]
      ∧ branchesOkLabels500.errorToast = some loadErrorToast := by
  refine ⟨rfl, by decide, rfl⟩

/-- Claim C6 (amended): the overall load never raises (every failure is
caught locally, reported through the error toast, and the loading flag is
cleared), but the three fetches are joined all-or-nothing rather than
independently: if any one of them fails, none of the results populate the
form (the three lists keep their previous values), and the results
populate the form only when all three succeed, each payload defaulting to
the empty list when its field is missing. -/
theorem c6_all_or_nothing_amended (cfgBase : String)
    (br : Except String BranchesResponse) (lr : Except String LabelsResponse)
    (cr : Except String CollaboratorsResponse) (st : CreatePRState) :
    (((∃ e, br = .error e) ∨ (∃ e, lr = .error e) ∨ (∃ e, cr = .error e)) →
        (loadGitHubData cfgBase br lr cr st).branches = st.branches
      ∧ (loadGitHubData cfgBase br lr cr st).labels = st.labels
      ∧ (loadGitHubData cfgBase br lr cr st).reviewers = st.reviewers
      ∧ (loadGitHubData cfgBase br lr cr st).errorToast = some loadErrorToast
      ∧ (loadGitHubData cfgBase br lr cr st).isLoadingData = false)
  ∧ (∀ b l c, br = .ok b → lr = .ok l → cr = .ok c →
        (loadGitHubData cfgBase br lr cr st).branches = b.branches.getD []
      ∧ (loadGitHubData cfgBase br lr cr st).labels = l.labels.getD []
      ∧ (loadGitHubData cfgBase br lr cr st).reviewers = c.collaborators.getD []
      ∧ (loadGitHubData cfgBase br lr cr st).errorToast = st.errorToast
      ∧ (loadGitHubData cfgBase br lr cr st).isLoadingData = false) := by
  cases br with
  | error e0 =>
    refine ⟨fun _ => ⟨rfl, rfl, rfl, rfl, rfl⟩, ?_⟩
    intro b l c hb hl hc
    exact absurd hb (by simp)
  | ok b0 =>
    cases lr with
    | error e0 =>
      refine ⟨fun _ => ⟨rfl, rfl, rfl, rfl, rfl⟩, ?_⟩
      intro b l c hb hl hc
      exact absurd hl (by simp)
    | ok l0 =>
      cases cr with
      | error e0 =>
        refine ⟨fun _ => ⟨rfl, rfl, rfl, rfl, rfl⟩, ?_⟩
        intro b l c hb hl hc
        exact absurd hc (by simp)
      | ok c0 =>
        constructor
        · rintro (⟨e, he⟩ | ⟨e, he⟩ | ⟨e, he⟩) <;> simp at he
        · intro b l c hb hl hc
          injection hb with hb
          injection hl with hl
          injection hc with hc
          subst hb; subst hl; subst hc
          refine ⟨?_, ?_, ?_, ?_, ?_⟩ <;>
            simp only [loadGitHubData] <;>
            try (split <;> simp_all)

theorem c6_witness :
    (loadGitHubData ("main") (.ok { branches := some [mainBranchSample] })
        (.ok { labels := some [] }) (.ok { collaborators := some [] })
        initialCreatePRState).branches = [mainBranchSample] := by
  have h := (c6_all_or_nothing_amended ("main")
      (.ok { branches := some [mainBranchSample] })
      (.ok { labels := some [] }) (.ok { collaborators := some [] })
      initialCreatePRState).2 _ _ _ rfl rfl rfl
  exact h.1

/-- Claim C9: `validateConfig` returns `isValid = true` exactly when its
`missing` list is empty, and `missing` contains exactly those of the five
required names whose configured value is empty, for every configuration
(hence for every environment, since every lookup falls back to the empty
string). -/
theorem c9_validate_config (config : AppConfig) :
    ((validateConfig config).isValid = true ↔ (validateConfig config).missing = [])
  ∧ (∀ n : String, n ∈ (validateConfig config).missing ↔
       ((n = "GITHUB_TOKEN" ∧ config.github.token = "")
      ∨ (n = "GITHUB_REPO" ∧ config.github.repository = "")
      ∨ (n = "GROQ_API_KEY" ∧ config.groq.apiKey = "")
      ∨ (n = "GOOGLE_SHEETS_CREDENTIALS_FILE" ∧ config.sheets.credentialsFile = "")
      ∨ (n = "GOOGLE_SHEETS_SPREADSHEET_ID" ∧ config.sheets.spreadsheetId = ""))) := by
  by_cases h1 : config.github.token = "" <;>
  by_cases h2 : config.github.repository = "" <;>
  by_cases h3 : config.groq.apiKey = "" <;>
  by_cases h4 : config.sheets.credentialsFile = "" <;>
  by_cases h5 : config.sheets.spreadsheetId = "" <;>
    simp [validateConfig, h1, h2, h3, h4, h5]

/-- Claim C10: the list fetchers of the GitHub service are total at the
public interface: on any remote failure, and on missing token or
repository configuration, they return the empty list rather than throwing,
whereas `createPullRequest` propagates remote failures to its caller (and
throws on missing configuration). -/
theorem c10_service_error_containment (α : Type) (token repo : String)
    (b : List GitHubBranch) (l : List GitHubLabel) (u : List GitHubUser)
    (err : String) (title head base body : String)
    (labels reviewers : List String) (data : α) :
    (GitHubService.getBranches token repo (.failure err) = [])
  ∧ (GitHubService.getLabels token repo (.failure err) = [])
  ∧ (GitHubService.getCollaborators token repo (.failure err) = [])
  ∧ (token = "" →
        GitHubService.getBranches token repo (.success b) = []
      ∧ GitHubService.getLabels token repo (.success l) = []
      ∧ GitHubService.getCollaborators token repo (.success u) = [])
  ∧ (repo = "" →
        GitHubService.getBranches token repo (.success b) = []
      ∧ GitHubService.getLabels token repo (.success l) = []
      ∧ GitHubService.getCollaborators token repo (.success u) = [])
  ∧ (token ≠ "" → repo ≠ "" →
      GitHubService.createPullRequest α token repo title head base body
        labels reviewers (.failure err) = .error err)
  ∧ (token = "" →
      GitHubService.createPullRequest α token repo title head base body
        labels reviewers (.success data)
        = .error ("GitHub token or repository not configured")) := by
  refine ⟨?_, ?_, ?_, ?_, ?_, ?_, ?_⟩
  · unfold GitHubService.getBranches; split <;> rfl
  · unfold GitHubService.getLabels; split <;> rfl
  · unfold GitHubService.getCollaborators; split <;> rfl
  · intro h
    refine ⟨?_, ?_, ?_⟩ <;>
      simp [GitHubService.getBranches, GitHubService.getLabels,
        GitHubService.getCollaborators, h]
  · intro h
    refine ⟨?_, ?_, ?_⟩ <;>
      simp [GitHubService.getBranches, GitHubService.getLabels,
        GitHubService.getCollaborators, h]
  · intro h1 h2
    simp [GitHubService.createPullRequest, h1, h2]
  · intro h
    simp [GitHubService.createPullRequest, h]

theorem c10_witness :
    (("tok" : String) ≠ "")
      ∧ (("owner/repo" : String) ≠ "")
      ∧ GitHubService.createPullRequest Nat ("tok") ("owner/repo") ("t") ("h")
          ("b") ("") [] [] (.failure ("boom")) = .error ("boom") :=
  ⟨by decide, by decide,
   (c10_service_error_containment Nat ("tok") ("owner/repo") [] [] [] ("boom")
       ("t") ("h") ("b") ("") [] [] 0).2.2.2.2.2.1
     (by decide) (by decide)⟩

end AutomatePR
